import Mathlib

/-!
Verification of the SmartRover dashboard (Kedarcv/SmartRover).

This file gives a shallow embedding of the client-side state management of
the dashboard (`src/app/page.tsx` and the variant dashboard plus the
`/api/vehicle-data` route handler shipped in the repository) and proves the
behavioural properties stated in the specification: vehicle registry
add/connect behaviour, the telemetry poll cycle, login/logout, map
rendering, and the in-memory vehicle-data route.

The React component is modelled as a pure state-transition system: every
`useState` cell that the properties mention becomes a field of `AppState`,
`localStorage` becomes the three-key `Storage` record, and each handler
becomes a function `AppState -> inputs -> AppState`.  Network requests are
modelled by passing the outcome of each request as an explicit argument
(`FetchOutcome`), and `Date.now()` is an explicit `now : Nat` argument.
JavaScript string operations are modelled on the character-list view of
`String`.
-/

namespace SmartRover

/-- JavaScript `s.startsWith(p)` on the character-list view of strings. -/
def jsStartsWith (s p : String) : Bool :=
  p.data.isPrefixOf s.data

/-- JavaScript `s.toLowerCase()`: lower-case every character. -/
def jsToLower (s : String) : String :=
  ⟨s.data.map Char.toLower⟩

/-- JavaScript `s.trim()`: drop whitespace from both ends. -/
def jsTrim (s : String) : String :=
  ⟨((s.data.dropWhile Char.isWhitespace).reverse.dropWhile Char.isWhitespace).reverse⟩

/-- Connection status of a registry entry (`Vehicle.status` in page.tsx). -/
inductive Status where
  | connected
  | disconnected
  | connecting
deriving DecidableEq, Repr

/-- Origin of a registry entry (`Vehicle.type` in page.tsx). -/
inductive VehicleType where
  | manual
  | discovered
deriving DecidableEq, Repr

/-- Registry entry, mirroring `interface Vehicle` in page.tsx. -/
structure Vehicle where
  id : String
  name : String
  url : String
  status : Status
  lastSeen : Option Nat
  type : VehicleType
deriving DecidableEq, Repr

/-- Session record, mirroring `interface User` in page.tsx. -/
structure User where
  email : String
  loginTime : Nat
deriving DecidableEq, Repr

/-- One cell of `map_data.map_region`: at runtime either an RGB-style array
or a scalar grayscale value (the TS type is `number[][][]` but `drawMap`
dispatches on `Array.isArray`). -/
inductive MapCell where
  | arr (elems : List Nat)
  | num (v : Nat)
deriving DecidableEq, Repr

/-- Fragment of `VehicleData.connection_info` used by the dashboard. -/
structure ConnectionInfo where
  wifi_connected : Bool
  bluetooth_connected : Bool
  last_update : Nat
deriving DecidableEq, Repr

/-- Fragment of `VehicleData.map_data` used by the dashboard. -/
structure MapData where
  map_region : List (List MapCell)
  timestamp : Nat
deriving DecidableEq, Repr

/-- Telemetry snapshot (`interface VehicleData`), restricted to the fields
the verified behaviour reads; the snapshot is stored and cleared wholesale. -/
structure VehicleData where
  timestamp : Nat
  heading : Nat
  connection_info : ConnectionInfo
  map_data : MapData
deriving DecidableEq, Repr

/-- Host snapshot (`interface SystemInfo`), restricted to representative
fields; it is only ever stored wholesale or cleared. -/
structure SystemInfo where
  platform : String
  hostname : String
  uptime : Nat
  bluetooth_clients : Nat
  timestamp : Nat
deriving DecidableEq, Repr

/-- Payload of a successful `/api/logs` response. -/
structure LogsData where
  logs : List String
deriving DecidableEq, Repr

/-- Browser `localStorage` restricted to the three fixed keys the dashboard
uses (`smartrover_user`, `smartrover_vehicles`, `smartrover_active_vehicle`);
a `none` field means the key is absent. -/
structure Storage where
  user : Option User
  vehicles : Option (List Vehicle)
  activeVehicle : Option Vehicle
deriving DecidableEq, Repr

/-- The dashboard component state: one field per `useState` cell that the
verified behaviour touches, plus the browser storage. -/
structure AppState where
  isAuthenticated : Bool
  user : Option User
  showLogin : Bool
  vehicles : List Vehicle
  activeVehicle : Option Vehicle
  vehicleData : Option VehicleData
  systemInfo : Option SystemInfo
  isConnected : Bool
  isBluetoothConnected : Bool
  logs : List String
  activeTab : String
  storage : Storage
deriving DecidableEq, Repr

/-- The fixed compiled-in credential table `VALID_USERS` of page.tsx. -/
def VALID_USERS : List (String × String) :=
  [("cvlised360@gmail.com", "Cvlised@360"),
   ("admin@smartrover.com", "admin123"),
   ("operator@smartrover.com", "operator123")]

/-- The `loadVehicles` handler: re-read the vehicle list and the active
vehicle from storage; each `useState` cell is only overwritten when the
corresponding key is present. -/
def loadVehicles (st : AppState) : AppState :=
  { st with
    vehicles :=
      match st.storage.vehicles with
      | some l => l
      | none => st.vehicles
    activeVehicle :=
      match st.storage.activeVehicle with
      | some v => some v
      | none => st.activeVehicle }

/-- The `handleLogin` handler: lower-case and trim the email, compare the
password against the compiled-in table; on success persist the session
record and load the vehicles, on failure only show the generic alert (no
state change).  The returned Bool reports success. -/
def handleLogin (st : AppState) (emailInput passwordInput : String) (now : Nat) :
    AppState × Bool :=
  let email := jsTrim (jsToLower emailInput)
  if VALID_USERS.lookup email = some passwordInput then
    let userData : User := { email := email, loginTime := now }
    let st1 :=
      { st with
        storage := { st.storage with user := some userData }
        user := some userData
        isAuthenticated := true
        showLogin := false }
    (loadVehicles st1, true)
  else
    (st, false)

/-- The `handleLogout` handler: remove the session and active-vehicle keys,
clear the session, active vehicle, cached data and connection flag, and
re-show the login dialog. -/
def handleLogout (st : AppState) : AppState :=
  { st with
    storage := { st.storage with user := none, activeVehicle := none }
    isAuthenticated := false
    user := none
    activeVehicle := none
    vehicleData := none
    systemInfo := none
    isConnected := false
    showLogin := true }

/-- The `saveVehicles` helper: persist the list under the vehicles key and
update the `vehicles` state. -/
def saveVehicles (st : AppState) (vehicleList : List Vehicle) : AppState :=
  { st with
    storage := { st.storage with vehicles := some vehicleList }
    vehicles := vehicleList }

/-- URL normalisation in `addVehicle`: prepend "http://" when neither
"http://" nor "https://" is already a prefix of the input. -/
def normalizeUrl (url : String) : String :=
  if ¬ jsStartsWith url "http://" = true ∧ ¬ jsStartsWith url "https://" = true then
    "http://" ++ url
  else
    url

/-- The `addVehicle` handler (variant with URL normalisation): reject empty
name or url, otherwise append a fresh manual vehicle whose id is
`Date.now().toString()` and whose url is normalised. -/
def addVehicle (st : AppState) (name url : String) (now : Nat) : AppState :=
  if name = "" ∨ url = "" then st
  else
    let newVehicle : Vehicle :=
      { id := Nat.repr now
        name := name
        url := normalizeUrl url
        status := .disconnected
        lastSeen := none
        type := .manual }
    saveVehicles st (st.vehicles ++ [newVehicle])

/-- The vehicle written on a successful connect: the probed vehicle marked
`connected` with `lastSeen` recorded. -/
def connectedVersion (v : Vehicle) (now : Nat) : Vehicle :=
  { v with status := .connected, lastSeen := some now }

/-- The `connectToVehicle` handler.  The probe of
`{url}/api/system-status` is passed in as `probeOk`.  First every entry with
the probed id is marked `connecting`; on probe success the closure rebuilds
the list from the pre-call `vehicles`, marking the probed vehicle
`connected` (with `lastSeen`) and every other entry `disconnected`, stores
it, sets the active vehicle (state and storage) and switches to the
dashboard tab; on probe failure it rebuilds the pre-call list with only the
probed vehicle marked `disconnected`. -/
def connectToVehicle (st : AppState) (v : Vehicle) (probeOk : Bool) (now : Nat) :
    AppState :=
  let updatedVehicles :=
    st.vehicles.map fun w => if w.id = v.id then { w with status := .connecting } else w
  let st1 := saveVehicles st updatedVehicles
  if probeOk then
    let finalVehicles :=
      st.vehicles.map fun w =>
        if w.id = v.id then connectedVersion v now else { w with status := .disconnected }
    let st2 := saveVehicles st1 finalVehicles
    { st2 with
      activeVehicle := some (connectedVersion v now)
      storage := { st2.storage with activeVehicle := some (connectedVersion v now) }
      isConnected := true
      activeTab := "dashboard" }
  else
    let failedVehicles :=
      st.vehicles.map fun w =>
        if w.id = v.id then { w with status := .disconnected } else w
    saveVehicles st1 failedVehicles

/-- The `disconnectFromVehicle` handler. -/
def disconnectFromVehicle (st : AppState) : AppState :=
  let st1 :=
    match st.activeVehicle with
    | some av =>
        saveVehicles st
          (st.vehicles.map fun (w : Vehicle) =>
            if w.id = av.id then { w with status := .disconnected } else w)
    | none => st
  { st1 with
    activeVehicle := none
    isConnected := false
    vehicleData := none
    systemInfo := none
    storage := { st1.storage with activeVehicle := none }
    activeTab := "vehicles" }

/-- Outcome of one raw network request: either a network/timeout/non-2xx
failure, or a JSON body with its `success` flag and payload. -/
inductive FetchOutcome (α : Type) where
  | failure
  | ok (success : Bool) (data : α)
deriving DecidableEq, Repr

/-- The `safeFetch` wrapper: any failure yields `null`, and a body whose
`success` field is `false` also yields `null`; otherwise the body is
returned. -/
def safeFetch {α : Type} : FetchOutcome α → Option (Bool × α)
  | .failure => none
  | .ok success data => if success = false then none else some (success, data)

/-- The `fetchVehicleData` poll step: on a successful vehicle-status
response store the snapshot, set the connection flag, mirror the bluetooth
flag, and refresh the active vehicle's `lastSeen` (state and storage);
otherwise clear the connection flag and the cached snapshot. -/
def fetchVehicleData (st : AppState) (outcome : FetchOutcome VehicleData) (now : Nat) :
    AppState :=
  match st.activeVehicle with
  | none => st
  | some av =>
    match safeFetch outcome with
    | some (true, data) =>
        let updatedVehicle := { av with lastSeen := some now }
        { st with
          vehicleData := some data
          isConnected := true
          isBluetoothConnected := data.connection_info.bluetooth_connected
          activeVehicle := some updatedVehicle
          storage := { st.storage with activeVehicle := some updatedVehicle } }
    | _ => { st with isConnected := false, vehicleData := none }

/-- The `fetchSystemInfo` poll step: early exit without an active vehicle or
without a connection; otherwise store the snapshot on success and clear it
otherwise. -/
def fetchSystemInfo (st : AppState) (outcome : FetchOutcome SystemInfo) : AppState :=
  if st.activeVehicle = none ∨ st.isConnected = false then st
  else
    match safeFetch outcome with
    | some (true, data) => { st with systemInfo := some data }
    | _ => { st with systemInfo := none }

/-- The `fetchLogs` poll step: store the log lines only on success. -/
def fetchLogs (st : AppState) (outcome : FetchOutcome LogsData) : AppState :=
  match st.activeVehicle with
  | none => st
  | some _ =>
    match safeFetch outcome with
    | some (true, data) => { st with logs := data.logs }
    | _ => st

/-- One telemetry poll tick: `fetchVehicleData`, then `fetchSystemInfo`,
then (only when the logs tab is selected at tick time) `fetchLogs`.  Each
request's outcome is an independent argument. -/
def pollCycle (st : AppState) (statusOutcome : FetchOutcome VehicleData)
    (sysOutcome : FetchOutcome SystemInfo) (logsOutcome : FetchOutcome LogsData)
    (now : Nat) : AppState :=
  let st1 := fetchVehicleData st statusOutcome now
  let st2 := fetchSystemInfo st1 sysOutcome
  if st.activeTab = "logs" then fetchLogs st2 logsOutcome else st2

/-- One RGBA pixel of the canvas `ImageData`. -/
structure Pixel where
  r : Nat
  g : Nat
  b : Nat
  a : Nat
deriving DecidableEq, Repr

/-- How `drawMap` paints one grid cell: an array of length at least 3 is
taken as RGB with alpha forced to 255; anything else falls to the grayscale
branch, where a scalar paints its value on all three channels and a
non-numeric cell paints 0. -/
def paintCell : MapCell → Pixel
  | .arr elems =>
      if 3 ≤ elems.length then ⟨elems.getD 0 0, elems.getD 1 0, elems.getD 2 0, 255⟩
      else ⟨0, 0, 0, 255⟩
  | .num v => ⟨v, v, v, 255⟩

/-- The raster produced by `drawMap` on a `width` by `height` canvas, as a
function from coordinates to the pixel at `(x, y)`: the double loop paints
cell `(x, y)` exactly when `y < min height mapRegion.length` and
`x < min width` (length of row `y`), writing to `imageData` index
`(y * width + x) * 4`; every untouched pixel keeps the transparent black of
`createImageData`. -/
def drawMapPixel (width height : Nat) (mapRegion : List (List MapCell)) (x y : Nat) :
    Pixel :=
  if y < min height mapRegion.length ∧ x < min width ((mapRegion.getD y []).length) then
    paintCell ((mapRegion.getD y []).getD x (.num 0))
  else ⟨0, 0, 0, 0⟩

/-- One stored entry of the demo `/api/vehicle-data` route: the received
payload together with its `receivedAt` stamp. -/
structure StoredEntry (α : Type) where
  data : α
  receivedAt : Nat
deriving DecidableEq, Repr

/-- In-memory module state of the `/api/vehicle-data` route:
`latestVehicleData` and the rolling `dataHistory`. -/
structure RouteState (α : Type) where
  latestVehicleData : Option (StoredEntry α)
  dataHistory : List (StoredEntry α)
deriving DecidableEq, Repr

/-- Initial module state of the route: no latest payload, empty history. -/
def RouteState.init (α : Type) : RouteState α := ⟨none, []⟩

/-- The `POST /api/vehicle-data` handler: record the payload as latest, push
it onto the history, and `shift` the oldest entry once the history exceeds
1000 entries. -/
def postVehicleData {α : Type} (st : RouteState α) (payload : α) (now : Nat) :
    RouteState α :=
  let entry : StoredEntry α := ⟨payload, now⟩
  let pushed := st.dataHistory ++ [entry]
  let hist := if pushed.length > 1000 then pushed.drop 1 else pushed
  ⟨some entry, hist⟩

/-- Body of the `GET /api/vehicle-data` response. -/
structure GetResponse (α : Type) where
  latest : Option (StoredEntry α)
  history : List (StoredEntry α)
  totalEntries : Nat
deriving DecidableEq, Repr

/-- The `GET /api/vehicle-data` handler: the latest payload, the
`slice(-100)` tail of the history, and the history length. -/
def getVehicleData {α : Type} (st : RouteState α) : GetResponse α :=
  ⟨st.latestVehicleData,
   st.dataHistory.drop (st.dataHistory.length - 100),
   st.dataHistory.length⟩

/-- Fold a sequence of POST requests (payload and arrival time each) over
the initial route state. -/
def runPosts {α : Type} (ps : List (α × Nat)) : RouteState α :=
  ps.foldl (fun st p => postVehicleData st p.1 p.2) (RouteState.init α)

/-- The entry stored for one POST request. -/
def toEntry {α : Type} (p : α × Nat) : StoredEntry α := ⟨p.1, p.2⟩

/-- One vehicle-creating operation: a manual `addVehicle` (name and url
from the dialog) or one successful discovery probe of the network scan
(address suffix index `i` and `port` within `range`). -/
inductive CreationEvent where
  | add (name url : String)
  | discover (range : String) (i : Nat) (port : Nat)
deriving DecidableEq, Repr

/-- The id generated for a creating operation at `Date.now() = now`:
`now.toString()` for a manual add, `discovered_T_i` for a discovery hit. -/
def eventId : CreationEvent → Nat → String
  | .add _ _, now => Nat.repr now
  | .discover _ i _, now => "discovered_" ++ Nat.repr now ++ "_" ++ Nat.repr i

/-- The url stored for a creating operation. -/
def eventUrl : CreationEvent → String
  | .add _ url => normalizeUrl url
  | .discover range i port => "http://" ++ range ++ Nat.repr i ++ ":" ++ Nat.repr port

/-- The vehicle appended by a creating operation at time `now`. -/
def vehicleOfEvent (e : CreationEvent) (now : Nat) : Vehicle :=
  match e with
  | .add name _ =>
      { id := eventId e now, name := name, url := eventUrl e,
        status := .disconnected, lastSeen := none, type := .manual }
  | .discover range i port =>
      { id := eventId e now,
        name := "Vehicle " ++ range ++ Nat.repr i ++ ":" ++ Nat.repr port,
        url := eventUrl e,
        status := .disconnected, lastSeen := none, type := .discovered }

/-- Effect of one creating operation on the registry: a manual add is
rejected on empty name or url, a discovery hit is dropped when its url is
already registered; otherwise the new vehicle is appended. -/
def applyCreation (vs : List Vehicle) (e : CreationEvent) (now : Nat) : List Vehicle :=
  match e with
  | .add name url =>
      if name = "" ∨ url = "" then vs else vs ++ [vehicleOfEvent e now]
  | .discover _ _ _ =>
      if vs.any (fun v => v.url == eventUrl e) then vs else vs ++ [vehicleOfEvent e now]

/-- Run a sequence of creating operations (each with its `Date.now()`)
over a registry. -/
def runCreations (vs : List Vehicle) (evs : List (CreationEvent × Nat)) : List Vehicle :=
  evs.foldl (fun acc p => applyCreation acc p.1 p.2) vs

/-- The id a creation event contributes, as a function of the event-time
pair. -/
def eventKey (p : CreationEvent × Nat) : String := eventId p.1 p.2

/-- Numeric value of a decimal digit character. -/
def digitVal (c : Char) : Nat := c.toNat - 48

/-- Value of a most-significant-first decimal digit string. -/
def digitsVal (cs : List Char) : Nat :=
  cs.foldl (fun acc c => 10 * acc + digitVal c) 0

/-- Empty storage: none of the three keys present. -/
def emptyStorage : Storage := ⟨none, none, none⟩

/-- The component state right after mount with no saved session. -/
def initialState : AppState :=
  { isAuthenticated := false
    user := none
    showLogin := true
    vehicles := []
    activeVehicle := none
    vehicleData := none
    systemInfo := none
    isConnected := false
    isBluetoothConnected := false
    logs := []
    activeTab := "vehicles"
    storage := emptyStorage }

/-- A sample manual vehicle used to instantiate the theorems. -/
def vA : Vehicle :=
  { id := "1", name := "Rover A", url := "http://192.168.1.5:5000",
    status := .disconnected, lastSeen := none, type := .manual }

/-- A second sample vehicle. -/
def vB : Vehicle :=
  { id := "2", name := "Rover B", url := "http://192.168.1.6:5000",
    status := .connected, lastSeen := some 3, type := .manual }

/-- A sample authenticated state with a two-vehicle registry, `vB` active. -/
def demoState : AppState :=
  { isAuthenticated := true
    user := some ⟨"admin@smartrover.com", 1⟩
    showLogin := false
    vehicles := [vA, vB]
    activeVehicle := some vB
    vehicleData := none
    systemInfo := none
    isConnected := true
    isBluetoothConnected := false
    logs := []
    activeTab := "vehicles"
    storage := ⟨some ⟨"admin@smartrover.com", 1⟩, some [vA, vB], some vB⟩ }

/-- The 2-row demo grid from the specification:
`[[[255,0,0],[0,255,0]],[[0,0,255],[10,10,10]]]`. -/
def demoGrid : List (List MapCell) :=
  [[.arr [255, 0, 0], .arr [0, 255, 0]],
   [.arr [0, 0, 255], .arr [10, 10, 10]]]

/-- Helper: a login attempt whose (lower-cased, trimmed) email maps to some
table password different from the supplied one changes nothing and reports
failure. -/
theorem handleLogin_wrong (st : AppState) (now : Nat) (e pw p : String)
    (hlk : VALID_USERS.lookup (jsTrim (jsToLower e)) = some pw)
    (hp : p ≠ pw) :
    handleLogin st e p now = (st, false) := by
  have hneg : ¬ (VALID_USERS.lookup (jsTrim (jsToLower e)) = some p) := by
    rw [hlk]
    intro hc
    injection hc with hc
    exact hp hc.symm
  simp [handleLogin, hneg]

/-- C2: `addVehicle` with an empty name or url leaves the state unchanged
(no vehicle is appended); otherwise exactly one vehicle is appended whose
stored url is the input prefixed with "http://" when the input starts with
neither "http://" nor "https://", and the unchanged input otherwise. -/
theorem addVehicle_normalizes (st : AppState) (name url : String) (now : Nat) :
    (name = "" ∨ url = "" → addVehicle st name url now = st)
    ∧ (name ≠ "" → url ≠ "" →
        (addVehicle st name url now).vehicles
          = st.vehicles ++
            [{ id := Nat.repr now, name := name,
               url := if ¬ jsStartsWith url "http://" = true
                        ∧ ¬ jsStartsWith url "https://" = true
                      then "http://" ++ url else url,
               status := .disconnected, lastSeen := none, type := .manual }]) := by
  constructor
  · intro h
    simp [addVehicle, h]
  · intro h1 h2
    simp [addVehicle, h1, h2, saveVehicles, normalizeUrl]

/-- Witness for C2: a bare host-and-port url is stored with the "http://"
prefix. -/
theorem addVehicle_normalizes_witness :
    ("Rover" : String) ≠ "" ∧ ("192.168.1.9:5000" : String) ≠ ""
    ∧ (addVehicle demoState "Rover" "192.168.1.9:5000" 7).vehicles
        = demoState.vehicles ++
          [{ id := "7", name := "Rover", url := "http://192.168.1.9:5000",
             status := .disconnected, lastSeen := none, type := .manual }] := by
  refine ⟨by decide, by decide, ?_⟩
  have h := (addVehicle_normalizes demoState "Rover" "192.168.1.9:5000" 7).2
    (by decide) (by decide)
  rw [h]
  decide

/-- C7: login validates against the compiled-in table with the email
lower-cased and trimmed: the admin login succeeds, authenticates, and
persists the session record to storage; any email of the table supplied
with a wrong password fails and leaves the whole state unchanged (so no
session record is persisted). -/
theorem handleLogin_table (st : AppState) (now : Nat) :
    ((handleLogin st "admin@smartrover.com" "admin123" now).2 = true
      ∧ (handleLogin st "admin@smartrover.com" "admin123" now).1.storage.user
          = some { email := "admin@smartrover.com", loginTime := now }
      ∧ (handleLogin st "admin@smartrover.com" "admin123" now).1.isAuthenticated = true)
    ∧ (∀ e pw p, (e, pw) ∈ VALID_USERS → p ≠ pw →
        handleLogin st e p now = (st, false)) := by
  constructor
  · have he : jsTrim (jsToLower "admin@smartrover.com") = "admin@smartrover.com" := by
      decide
    have hlk : VALID_USERS.lookup "admin@smartrover.com" = some "admin123" := by decide
    refine ⟨?_, ?_, ?_⟩ <;> simp [handleLogin, he, hlk, loadVehicles]
  · intro e pw p hmem hp
    simp only [VALID_USERS, List.mem_cons, List.not_mem_nil, or_false,
      Prod.mk.injEq] at hmem
    rcases hmem with ⟨rfl, rfl⟩ | ⟨rfl, rfl⟩ | ⟨rfl, rfl⟩
    · exact handleLogin_wrong st now _ _ p (by decide) hp
    · exact handleLogin_wrong st now _ _ p (by decide) hp
    · exact handleLogin_wrong st now _ _ p (by decide) hp

/-- Witness for C7: the admin login succeeds and a wrong password for the
same account is rejected without a state change. -/
theorem handleLogin_table_witness :
    (handleLogin initialState "admin@smartrover.com" "admin123" 5).2 = true
    ∧ ("wrong" : String) ≠ "admin123"
    ∧ handleLogin initialState "admin@smartrover.com" "wrong" 5
        = (initialState, false) := by
  refine ⟨(handleLogin_table initialState 5).1.1, by decide, ?_⟩
  exact (handleLogin_table initialState 5).2 "admin@smartrover.com" "admin123" "wrong"
    (by decide) (by decide)

/-- C8: logout removes the persisted session record and active-vehicle key,
clears the in-memory session, active vehicle, cached vehicle and system
data, drops the connection flag, and shows the login dialog again. -/
theorem handleLogout_clears (st : AppState) :
    (handleLogout st).storage.user = none
    ∧ (handleLogout st).storage.activeVehicle = none
    ∧ (handleLogout st).activeVehicle = none
    ∧ (handleLogout st).user = none
    ∧ (handleLogout st).isConnected = false
    ∧ (handleLogout st).vehicleData = none
    ∧ (handleLogout st).systemInfo = none
    ∧ (handleLogout st).isAuthenticated = false
    ∧ (handleLogout st).showLogin = true := by
  simp [handleLogout]

/-- C10: logout leaves the vehicle registry intact: the persisted vehicle
list and the in-memory vehicles array are unchanged, and of the storage
keys only the session record and the active-vehicle pointer are removed. -/
theorem handleLogout_keeps_vehicles (st : AppState) :
    (handleLogout st).storage.vehicles = st.storage.vehicles
    ∧ (handleLogout st).vehicles = st.vehicles
    ∧ (handleLogout st).storage
        = { user := none, vehicles := st.storage.vehicles, activeVehicle := none } := by
  simp [handleLogout]

/-- C4: the map renderer paints every in-bounds cell channel-mapped 1:1
with alpha forced to 255 (an RGB cell `[r, g, b]` becomes `(r, g, b, 255)`
and a scalar cell `v` becomes `(v, v, v, 255)`); in particular the 2-row
demo grid on a 2-by-2 raster yields opaque red, green, blue and near-black
pixels in row-major order. -/
theorem drawMap_pixels :
    (∀ (width height : Nat) (mapRegion : List (List MapCell)) (x y : Nat),
        y < height → y < mapRegion.length →
        x < width → x < (mapRegion.getD y []).length →
        (∀ r g b rest,
            (mapRegion.getD y []).getD x (.num 0) = .arr (r :: g :: b :: rest) →
            drawMapPixel width height mapRegion x y = ⟨r, g, b, 255⟩)
          ∧ (∀ v, (mapRegion.getD y []).getD x (.num 0) = .num v →
              drawMapPixel width height mapRegion x y = ⟨v, v, v, 255⟩))
    ∧ drawMapPixel 2 2 demoGrid 0 0 = ⟨255, 0, 0, 255⟩
    ∧ drawMapPixel 2 2 demoGrid 1 0 = ⟨0, 255, 0, 255⟩
    ∧ drawMapPixel 2 2 demoGrid 0 1 = ⟨0, 0, 255, 255⟩
    ∧ drawMapPixel 2 2 demoGrid 1 1 = ⟨10, 10, 10, 255⟩ := by
  refine ⟨?_, by decide, by decide, by decide, by decide⟩
  intro width height mapRegion x y hyh hyl hxw hxl
  have hcond : y < min height mapRegion.length
      ∧ x < min width ((mapRegion.getD y []).length) := ⟨by omega, by omega⟩
  constructor
  · intro r g b rest harr
    simp only [drawMapPixel, if_pos hcond, harr, paintCell]
    rw [if_pos (by simp)]
    simp
  · intro v hnum
    simp only [drawMapPixel, if_pos hcond, hnum, paintCell]

/-- Witness for C4: the general cell property applied on the demo grid at
an off-square raster size. -/
theorem drawMap_pixels_witness :
    drawMapPixel 3 4 demoGrid 1 0 = ⟨0, 255, 0, 255⟩ := by
  exact (drawMap_pixels.1 3 4 demoGrid 1 0 (by decide) (by decide) (by decide)
    (by decide)).1 0 255 0 [] (by decide)

/-- Helper: in the success rebuild, entries whose id differs from the
probed one all end up `disconnected`, so the connected filter skips them. -/
theorem filter_connected_none (v : Vehicle) (now : Nat) (t : List Vehicle)
    (hid : ∀ w ∈ t, w.id ≠ v.id) :
    (t.map fun w =>
        if w.id = v.id then connectedVersion v now
        else { w with status := Status.disconnected }).filter
      (fun w => decide (w.status = Status.connected)) = [] := by
  induction t with
  | nil => rfl
  | cons h t ih =>
    simp only [List.map_cons]
    rw [if_neg (hid h (List.mem_cons_self h t))]
    rw [List.filter_cons_of_neg (by simp)]
    exact ih (fun w hw => hid w (List.mem_cons_of_mem h hw))

/-- Helper: on a registry with no duplicate ids that contains the probed
vehicle, the success rebuild leaves exactly one `connected` entry, namely
the probed vehicle with `lastSeen` recorded. -/
theorem filter_connected_of_nodup (v : Vehicle) (now : Nat) :
    ∀ l : List Vehicle, v ∈ l → (l.map Vehicle.id).Nodup →
      (l.map fun w =>
          if w.id = v.id then connectedVersion v now
          else { w with status := Status.disconnected }).filter
        (fun w => decide (w.status = Status.connected)) = [connectedVersion v now] := by
  intro l
  induction l with
  | nil => intro hv _; cases hv
  | cons h t ih =>
    intro hv hnd
    simp only [List.map_cons, List.nodup_cons] at hnd
    rcases List.mem_cons.mp hv with rfl | hvt
    · have hhead : (fun w => if w.id = v.id then connectedVersion v now
          else { w with status := Status.disconnected }) v = connectedVersion v now := by
        simp
      simp only [List.map_cons, hhead]
      rw [List.filter_cons_of_pos (by simp [connectedVersion])]
      rw [filter_connected_none v now t ?hid]
      case hid =>
        intro w hw heq
        exact hnd.1 (heq ▸ List.mem_map_of_mem Vehicle.id hw)
      simp
    · have hne : h.id ≠ v.id := by
        intro heq
        exact hnd.1 (heq.symm ▸ List.mem_map_of_mem Vehicle.id hvt)
      simp only [List.map_cons]
      rw [if_neg hne]
      rw [List.filter_cons_of_neg (by simp)]
      exact ih hvt hnd.2

/-- C1: after a successful `connect(v)` on a registry with distinct ids
containing `v`, the stored registry has exactly one `connected` entry,
namely `v` with `lastSeen` recorded; every other entry is `disconnected`;
`v` becomes the active vehicle in state and storage; and the stored list is
the new registry. -/
theorem connect_success (st : AppState) (v : Vehicle) (now : Nat)
    (hv : v ∈ st.vehicles) (hnd : (st.vehicles.map Vehicle.id).Nodup) :
    ((connectToVehicle st v true now).vehicles.filter
        (fun w => decide (w.status = Status.connected))) = [connectedVersion v now]
    ∧ (∀ w ∈ (connectToVehicle st v true now).vehicles,
        w = connectedVersion v now ∨ w.status = Status.disconnected)
    ∧ (connectToVehicle st v true now).activeVehicle = some (connectedVersion v now)
    ∧ (connectToVehicle st v true now).storage.activeVehicle
        = some (connectedVersion v now)
    ∧ (connectToVehicle st v true now).storage.vehicles
        = some (connectToVehicle st v true now).vehicles := by
  have hveh : (connectToVehicle st v true now).vehicles
      = st.vehicles.map fun w =>
          if w.id = v.id then connectedVersion v now
          else { w with status := Status.disconnected } := by
    simp [connectToVehicle, saveVehicles]
  refine ⟨?_, ?_, ?_, ?_, ?_⟩
  · rw [hveh]
    exact filter_connected_of_nodup v now st.vehicles hv hnd
  · rw [hveh]
    intro w hw
    rcases List.mem_map.mp hw with ⟨u, hu, rfl⟩
    by_cases hid : u.id = v.id
    · left; rw [if_pos hid]
    · right; rw [if_neg hid]
  · simp [connectToVehicle]
  · simp [connectToVehicle, saveVehicles]
  · simp [connectToVehicle, saveVehicles]

/-- Witness for C1 on the two-vehicle demo state. -/
theorem connect_success_witness :
    (vA ∈ demoState.vehicles ∧ (demoState.vehicles.map Vehicle.id).Nodup)
    ∧ (connectToVehicle demoState vA true 42).activeVehicle
        = some (connectedVersion vA 42)
    ∧ ((connectToVehicle demoState vA true 42).vehicles.filter
        (fun w => decide (w.status = Status.connected))) = [connectedVersion vA 42] := by
  refine ⟨⟨by decide, by decide⟩, ?_, ?_⟩
  · exact (connect_success demoState vA 42 (by decide) (by decide)).2.2.1
  · exact (connect_success demoState vA 42 (by decide) (by decide)).1

/-- C6: after a failed `connect(v)` on a registry with distinct ids
containing `v`, every entry with `v`'s id is `disconnected` (and the
disconnected copy of `v` is present), the registry keeps its length, every
entry other than `v` is unchanged in place, and the active-vehicle pointer
(state and storage) is unchanged. -/
theorem connect_failure (st : AppState) (v : Vehicle) (now : Nat)
    (hv : v ∈ st.vehicles) (hnd : (st.vehicles.map Vehicle.id).Nodup) :
    (∀ w ∈ (connectToVehicle st v false now).vehicles,
        w.id = v.id → w.status = Status.disconnected)
    ∧ { v with status := Status.disconnected } ∈ (connectToVehicle st v false now).vehicles
    ∧ (connectToVehicle st v false now).vehicles.length = st.vehicles.length
    ∧ (∀ (k : Nat) (hk : k < st.vehicles.length)
        (hk2 : k < (connectToVehicle st v false now).vehicles.length),
        st.vehicles[k] ≠ v → (connectToVehicle st v false now).vehicles[k] = st.vehicles[k])
    ∧ (connectToVehicle st v false now).activeVehicle = st.activeVehicle
    ∧ (connectToVehicle st v false now).storage.activeVehicle
        = st.storage.activeVehicle := by
  have hveh : (connectToVehicle st v false now).vehicles
      = st.vehicles.map fun w =>
          if w.id = v.id then { w with status := Status.disconnected } else w := by
    simp [connectToVehicle, saveVehicles]
  refine ⟨?_, ?_, ?_, ?_, ?_, ?_⟩
  · rw [hveh]
    intro w hw hid
    rcases List.mem_map.mp hw with ⟨u, hu, rfl⟩
    by_cases hu_id : u.id = v.id
    · rw [if_pos hu_id]
    · rw [if_neg hu_id]
      rw [if_neg hu_id] at hid
      exact absurd hid hu_id
  · rw [hveh]
    have := List.mem_map_of_mem
      (fun w => if w.id = v.id then { w with status := Status.disconnected } else w) hv
    simpa using this
  · rw [hveh, List.length_map]
  · intro k hk hk2 hne
    have hne_id : (st.vehicles[k]).id ≠ v.id := by
      intro heq
      exact hne (List.inj_on_of_nodup_map hnd (List.getElem_mem hk) hv heq)
    have : (connectToVehicle st v false now).vehicles[k]
        = if (st.vehicles[k]).id = v.id
          then { st.vehicles[k] with status := Status.disconnected }
          else st.vehicles[k] := by
      simp only [hveh]
      rw [List.getElem_map]
    rw [this, if_neg hne_id]
  · simp [connectToVehicle, saveVehicles]
  · simp [connectToVehicle, saveVehicles]

/-- Witness for C6 on the two-vehicle demo state: the active vehicle `vB`
is untouched by a failed probe of `vA`. -/
theorem connect_failure_witness :
    (vA ∈ demoState.vehicles ∧ (demoState.vehicles.map Vehicle.id).Nodup)
    ∧ (connectToVehicle demoState vA false 42).activeVehicle = demoState.activeVehicle
    ∧ { vA with status := Status.disconnected }
        ∈ (connectToVehicle demoState vA false 42).vehicles := by
  refine ⟨⟨by decide, by decide⟩, ?_, ?_⟩
  · exact (connect_failure demoState vA 42 (by decide) (by decide)).2.2.2.2.1
  · exact (connect_failure demoState vA 42 (by decide) (by decide)).2.1

/-- C3: a poll cycle with an active vehicle in which the vehicle-status
request fails (network failure or a body with success false) ends with the
connection flag false and the cached snapshot absent, whatever the
system-info and logs requests return. -/
theorem pollCycle_status_failure (st : AppState) (av : Vehicle)
    (hav : st.activeVehicle = some av)
    (statusOutcome : FetchOutcome VehicleData)
    (hfail : statusOutcome = .failure ∨ ∃ d, statusOutcome = .ok false d)
    (sysOutcome : FetchOutcome SystemInfo) (logsOutcome : FetchOutcome LogsData)
    (now : Nat) :
    (pollCycle st statusOutcome sysOutcome logsOutcome now).isConnected = false
    ∧ (pollCycle st statusOutcome sysOutcome logsOutcome now).vehicleData = none := by
  have hsf : safeFetch statusOutcome = (none : Option (Bool × VehicleData)) := by
    rcases hfail with h | ⟨d, h⟩ <;> subst h <;> simp [safeFetch]
  have h1 : fetchVehicleData st statusOutcome now
      = { st with isConnected := false, vehicleData := none } := by
    simp [fetchVehicleData, hav, hsf]
  have h2 : fetchSystemInfo { st with isConnected := false, vehicleData := none }
      sysOutcome = { st with isConnected := false, vehicleData := none } := by
    simp [fetchSystemInfo]
  have h3 : ∀ s2 : AppState, s2.isConnected = false → s2.vehicleData = none →
      (fetchLogs s2 logsOutcome).isConnected = false
      ∧ (fetchLogs s2 logsOutcome).vehicleData = none := by
    intro s2 hc hd
    cases hv2 : s2.activeVehicle with
    | none => simp [fetchLogs, hv2, hc, hd]
    | some w =>
      cases hm : safeFetch logsOutcome with
      | none => simp [fetchLogs, hv2, hm, hc, hd]
      | some pr =>
        rcases pr with ⟨b, d⟩
        cases b <;> simp [fetchLogs, hv2, hm, hc, hd]
  simp only [pollCycle]
  rw [h1, h2]
  by_cases htab : st.activeTab = "logs"
  · rw [if_pos htab]
    exact h3 _ rfl rfl
  · rw [if_neg htab]
    exact ⟨rfl, rfl⟩

/-- Witness for C3: a failed vehicle-status request on the demo state. -/
theorem pollCycle_status_failure_witness :
    demoState.activeVehicle = some vB
    ∧ (pollCycle demoState FetchOutcome.failure FetchOutcome.failure
        FetchOutcome.failure 9).isConnected = false
    ∧ (pollCycle demoState FetchOutcome.failure FetchOutcome.failure
        FetchOutcome.failure 9).vehicleData = none := by
  refine ⟨by decide, ?_, ?_⟩
  · exact (pollCycle_status_failure demoState vB (by decide) FetchOutcome.failure
      (Or.inl rfl) FetchOutcome.failure FetchOutcome.failure 9).1
  · exact (pollCycle_status_failure demoState vB (by decide) FetchOutcome.failure
      (Or.inl rfl) FetchOutcome.failure FetchOutcome.failure 9).2

/-- Helper: closed form of the route state after any sequence of POST
requests: the history is the last (at most) 1000 entries in arrival order
and the latest slot is the most recent entry. -/
theorem runPosts_characterization {α : Type} (ps : List (α × Nat)) :
    (runPosts ps).dataHistory = (ps.map toEntry).drop (ps.length - 1000)
    ∧ (runPosts ps).latestVehicleData = (ps.map toEntry).getLast? := by
  induction ps using List.reverseRecOn with
  | nil => simp [runPosts, RouteState.init]
  | append_singleton xs p ih =>
    have hstep : runPosts (xs ++ [p]) = postVehicleData (runPosts xs) p.1 p.2 := by
      simp [runPosts, List.foldl_append]
    rcases ih with ⟨ih1, ih2⟩
    have hmaps : (xs ++ [p]).map toEntry = xs.map toEntry ++ [toEntry p] := by simp
    have hlen2 : (xs ++ [p]).length = xs.length + 1 := by simp
    have hlenL : (xs.map toEntry).length = xs.length := by simp
    have hdlen : ((xs.map toEntry).drop (xs.length - 1000)).length
        = xs.length - (xs.length - 1000) := by
      rw [List.length_drop, hlenL]
    have hone : ([(⟨p.1, p.2⟩ : StoredEntry α)] : List (StoredEntry α)).length = 1 := rfl
    constructor
    · rw [hstep]
      simp only [postVehicleData]
      rw [ih1, hmaps, hlen2]
      by_cases hbig : 1000 ≤ xs.length
      · rw [if_pos (by rw [List.length_append, hdlen, hone]; omega)]
        rw [List.drop_append_of_le_length (by rw [hdlen]; omega)]
        rw [List.drop_drop]
        rw [List.drop_append_of_le_length (by rw [hlenL]; omega)]
        have harith : (xs.length - 1000) + 1 = xs.length + 1 - 1000 := by omega
        rw [harith]
        simp [toEntry]
      · rw [if_neg (by rw [List.length_append, hdlen, hone]; omega)]
        have h0 : xs.length - 1000 = 0 := by omega
        have h0' : xs.length + 1 - 1000 = 0 := by omega
        rw [h0, h0', List.drop_zero, List.drop_zero]
        simp [toEntry]
    · rw [hstep]
      simp only [postVehicleData]
      rw [hmaps]
      simp [toEntry]

/-- C5: after any sequence of POST /api/vehicle-data requests, the
in-memory history holds the last (at most 1000) received payloads in
arrival order with the oldest dropped beyond the cap, the latest slot is
the most recent payload, and GET returns that latest payload, the last
min(100, held) history entries and the held entry count, which is
min(received, 1000). -/
theorem vehicleData_route (α : Type) (ps : List (α × Nat)) :
    (runPosts ps).dataHistory = (ps.map toEntry).drop (ps.length - 1000)
    ∧ (runPosts ps).latestVehicleData = (ps.map toEntry).getLast?
    ∧ (getVehicleData (runPosts ps)).latest = (runPosts ps).latestVehicleData
    ∧ (getVehicleData (runPosts ps)).history
        = (runPosts ps).dataHistory.drop ((runPosts ps).dataHistory.length - 100)
    ∧ (getVehicleData (runPosts ps)).history.length
        = min 100 (runPosts ps).dataHistory.length
    ∧ (getVehicleData (runPosts ps)).totalEntries = min ps.length 1000 := by
  obtain ⟨h1, h2⟩ := runPosts_characterization ps
  refine ⟨h1, h2, rfl, rfl, ?_, ?_⟩
  · simp only [getVehicleData, List.length_drop]
    omega
  · simp only [getVehicleData]
    rw [h1, List.length_drop, List.length_map]
    omega

/-- C9 counterexample: two manual adds in the same millisecond both get the
id `Date.now().toString()`, so the resulting registry has two vehicles with
the same id and the pairwise-distinct-id claim fails. -/
theorem creation_ids_counterexample :
    ¬ ((runCreations []
          [(CreationEvent.add "Rover A" "192.168.1.5:5000", 0),
           (CreationEvent.add "Rover B" "192.168.1.6:5000", 0)]).map Vehicle.id).Nodup := by
  decide

/-- Helper: the accumulator of `Nat.toDigitsCore` is just appended to the
digits it produces. -/
theorem toDigitsCore_eq_append (fuel : Nat) :
    ∀ (n : Nat) (ds : List Char),
      Nat.toDigitsCore 10 fuel n ds = Nat.toDigitsCore 10 fuel n [] ++ ds := by
  induction fuel with
  | zero => intro n ds; simp [Nat.toDigitsCore]
  | succ fuel ih =>
    intro n ds
    simp only [Nat.toDigitsCore]
    by_cases h : n / 10 = 0
    · simp [h]
    · rw [if_neg h, if_neg h, ih (n / 10) (Nat.digitChar (n % 10) :: ds),
        ih (n / 10) [Nat.digitChar (n % 10)]]
      simp

/-- Helper: value of a digit character produced by `Nat.digitChar`. -/
theorem digitVal_digitChar (m : Nat) (h : m < 10) :
    digitVal (Nat.digitChar m) = m := by
  interval_cases m <;> decide

/-- Helper: `digitsVal` of a snoc. -/
theorem digitsVal_concat (cs : List Char) (c : Char) :
    digitsVal (cs ++ [c]) = 10 * digitsVal cs + digitVal c := by
  simp [digitsVal, List.foldl_append]

/-- Helper: with enough fuel, `Nat.toDigitsCore` produces the decimal
digits of its argument. -/
theorem digitsVal_toDigitsCore (fuel : Nat) :
    ∀ n : Nat, n < fuel → digitsVal (Nat.toDigitsCore 10 fuel n []) = n := by
  induction fuel with
  | zero => intro n h; omega
  | succ fuel ih =>
    intro n h
    simp only [Nat.toDigitsCore]
    by_cases h0 : n / 10 = 0
    · rw [if_pos h0]
      have hn : n < 10 := by omega
      have hmod : n % 10 = n := Nat.mod_eq_of_lt hn
      rw [hmod]
      simp only [digitsVal, List.foldl_cons, List.foldl_nil, Nat.mul_zero, Nat.zero_add]
      exact digitVal_digitChar n hn
    · rw [if_neg h0]
      rw [toDigitsCore_eq_append fuel (n / 10) [Nat.digitChar (n % 10)]]
      rw [digitsVal_concat]
      have hd : n / 10 < n := Nat.div_lt_self (by omega) (by norm_num)
      rw [ih (n / 10) (by omega)]
      rw [digitVal_digitChar (n % 10) (Nat.mod_lt n (by norm_num))]
      omega

/-- Helper: the characters of `Nat.repr`. -/
theorem repr_data_eq (n : Nat) :
    (Nat.repr n).data = Nat.toDigitsCore 10 (n + 1) n [] := rfl

/-- Helper: `digitsVal` inverts `Nat.repr`. -/
theorem digitsVal_repr (n : Nat) : digitsVal (Nat.repr n).data = n := by
  rw [repr_data_eq]
  exact digitsVal_toDigitsCore (n + 1) n (Nat.lt_succ_self n)

/-- Helper: `Nat.repr` is injective. -/
theorem repr_injective {m n : Nat} (h : Nat.repr m = Nat.repr n) : m = n := by
  have hd : (Nat.repr m).data = (Nat.repr n).data := by rw [h]
  calc m = digitsVal (Nat.repr m).data := (digitsVal_repr m).symm
    _ = digitsVal (Nat.repr n).data := by rw [hd]
    _ = n := digitsVal_repr n

/-- Helper: `Nat.digitChar` of a decimal digit is a digit character. -/
theorem digitChar_isDigit (m : Nat) (h : m < 10) :
    (Nat.digitChar m).isDigit = true := by
  interval_cases m <;> decide

/-- Helper: every character `Nat.toDigitsCore` adds in front of a list of
digit characters is a digit character. -/
theorem toDigitsCore_digits (fuel : Nat) :
    ∀ (n : Nat) (ds : List Char), (∀ c ∈ ds, c.isDigit = true) →
      ∀ c ∈ Nat.toDigitsCore 10 fuel n ds, c.isDigit = true := by
  induction fuel with
  | zero =>
    intro n ds hds c hc
    simp only [Nat.toDigitsCore] at hc
    exact hds c hc
  | succ fuel ih =>
    intro n ds hds c hc
    simp only [Nat.toDigitsCore] at hc
    by_cases h0 : n / 10 = 0
    · rw [if_pos h0] at hc
      rcases List.mem_cons.mp hc with rfl | hmem
      · exact digitChar_isDigit (n % 10) (Nat.mod_lt n (by norm_num))
      · exact hds c hmem
    · rw [if_neg h0] at hc
      refine ih (n / 10) (Nat.digitChar (n % 10) :: ds) ?_ c hc
      intro c' hc'
      rcases List.mem_cons.mp hc' with rfl | hmem
      · exact digitChar_isDigit (n % 10) (Nat.mod_lt n (by norm_num))
      · exact hds c' hmem

/-- Helper: all characters of `Nat.repr` are digit characters. -/
theorem repr_chars_isDigit (n : Nat) :
    ∀ c ∈ (Nat.repr n).data, c.isDigit = true := by
  rw [repr_data_eq]
  exact toDigitsCore_digits (n + 1) n [] (by intro c hc; cases hc)

/-- Helper: no character of `Nat.repr` is an underscore. -/
theorem repr_char_ne_underscore (n : Nat) : ∀ c ∈ (Nat.repr n).data, c ≠ '_' := by
  intro c hc h
  have hdig := repr_chars_isDigit n c hc
  rw [h] at hdig
  exact absurd hdig (by decide)

/-- Helper: character-list view of string append. -/
theorem string_data_append (s t : String) : (s ++ t).data = s.data ++ t.data := by
  cases s; cases t; rfl

/-- Helper: splitting two equal lists at the first underscore, given that
the prefixes contain no underscore. -/
theorem append_underscore_inj :
    ∀ (a c b d : List Char),
      (∀ x ∈ a, x ≠ '_') → (∀ x ∈ c, x ≠ '_') →
      a ++ '_' :: b = c ++ '_' :: d → a = c ∧ b = d := by
  intro a
  induction a with
  | nil =>
    intro c b d _ hc h
    cases c with
    | nil => simpa using h
    | cons x xs =>
      exfalso
      have hx : x = '_' := by
        have hh := congrArg (fun l => l.head?) h
        simp at hh
        exact hh.symm
      exact hc x (List.mem_cons_self x xs) hx
  | cons y ys ih =>
    intro c b d ha hc h
    cases c with
    | nil =>
      exfalso
      have hy : y = '_' := by
        have hh := congrArg (fun l => l.head?) h
        simp at hh
        exact hh
      exact ha y (List.mem_cons_self y ys) hy
    | cons x xs =>
      simp only [List.cons_append, List.cons.injEq] at h
      obtain ⟨rfl, h2⟩ := h
      obtain ⟨h3, h4⟩ := ih xs b d (fun z hz => ha z (List.mem_cons_of_mem y hz))
        (fun z hz => hc z (List.mem_cons_of_mem y hz)) h2
      exact ⟨by rw [h3], h4⟩

/-- Helper: two creating operations that generate the same id string were
generated at the same `Date.now()` value. -/
theorem eventId_time_inj (e e' : CreationEvent) (t t' : Nat)
    (h : eventId e t = eventId e' t') : t = t' := by
  cases e with
  | add name url =>
    cases e' with
    | add name' url' => exact repr_injective h
    | discover range i port =>
      exfalso
      have hdata : (Nat.repr t).data
          = "discovered_".data ++ (Nat.repr t').data ++ "_".data ++ (Nat.repr i).data := by
        rw [show (Nat.repr t).data
            = ("discovered_" ++ Nat.repr t' ++ "_" ++ Nat.repr i).data
          from congrArg String.data h]
        rw [string_data_append, string_data_append, string_data_append]
      have hd : ('d' : Char) ∈ (Nat.repr t).data := by
        rw [hdata]
        simp [show ("discovered_" : String).data
            = ['d', 'i', 's', 'c', 'o', 'v', 'e', 'r', 'e', 'd', '_'] from rfl]
      have hdig := repr_chars_isDigit t 'd' hd
      exact absurd hdig (by decide)
  | discover range i port =>
    cases e' with
    | add name' url' =>
      exfalso
      have hdata : (Nat.repr t').data
          = "discovered_".data ++ (Nat.repr t).data ++ "_".data ++ (Nat.repr i).data := by
        rw [show (Nat.repr t').data
            = ("discovered_" ++ Nat.repr t ++ "_" ++ Nat.repr i).data
          from congrArg String.data h.symm]
        rw [string_data_append, string_data_append, string_data_append]
      have hd : ('d' : Char) ∈ (Nat.repr t').data := by
        rw [hdata]
        simp [show ("discovered_" : String).data
            = ['d', 'i', 's', 'c', 'o', 'v', 'e', 'r', 'e', 'd', '_'] from rfl]
      have hdig := repr_chars_isDigit t' 'd' hd
      exact absurd hdig (by decide)
    | discover range' i' port' =>
      have h0 := congrArg String.data h
      simp only [eventId] at h0
      rw [string_data_append, string_data_append, string_data_append,
        string_data_append, string_data_append, string_data_append] at h0
      rw [List.append_assoc, List.append_assoc, List.append_assoc, List.append_assoc] at h0
      have hcancel := List.append_inj_right h0 rfl
      simp only [show ("_" : String).data = ['_'] from rfl, List.singleton_append] at hcancel
      have hsplit := append_underscore_inj (Nat.repr t).data (Nat.repr t').data
        (Nat.repr i).data (Nat.repr i').data
        (repr_char_ne_underscore t) (repr_char_ne_underscore t') hcancel
      have hvals : digitsVal (Nat.repr t).data = digitsVal (Nat.repr t').data := by
        rw [hsplit.1]
      rw [digitsVal_repr, digitsVal_repr] at hvals
      exact hvals

/-- Helper: the same fact on event-time pairs. -/
theorem eventKey_time_inj (p q : CreationEvent × Nat) (h : eventKey p = eventKey q) :
    p.2 = q.2 :=
  eventId_time_inj p.1 q.1 p.2 q.2 h

/-- Helper: the ids of the registry produced by a run are a sublist of the
starting ids followed by the ids the events would generate. -/
theorem runCreations_ids_sublist (evs : List (CreationEvent × Nat)) :
    ∀ vs : List Vehicle,
      ((runCreations vs evs).map Vehicle.id).Sublist
        (vs.map Vehicle.id ++ evs.map eventKey) := by
  induction evs with
  | nil => intro vs; simp [runCreations]
  | cons p rest ih =>
    intro vs
    have hrun : runCreations vs (p :: rest)
        = runCreations (applyCreation vs p.1 p.2) rest := rfl
    rw [hrun]
    have hid : (vehicleOfEvent p.1 p.2).id = eventKey p := by
      cases p1 : p.1 <;> simp [vehicleOfEvent, eventKey, p1, eventId]
    have happ : applyCreation vs p.1 p.2 = vs
        ∨ applyCreation vs p.1 p.2 = vs ++ [vehicleOfEvent p.1 p.2] := by
      cases p.1 with
      | add name url =>
        simp only [applyCreation]
        split
        · exact Or.inl rfl
        · exact Or.inr rfl
      | discover range i port =>
        simp only [applyCreation]
        split
        · exact Or.inl rfl
        · exact Or.inr rfl
    rcases happ with he | he
    · rw [he]
      refine (ih vs).trans ?_
      rw [List.map_cons]
      exact List.Sublist.append_left (List.sublist_cons_self _ _) _
    · rw [he]
      refine (ih (vs ++ [vehicleOfEvent p.1 p.2])).trans ?_
      rw [List.map_cons]
      have heq : (vs ++ [vehicleOfEvent p.1 p.2]).map Vehicle.id ++ rest.map eventKey
          = vs.map Vehicle.id ++ (eventKey p :: rest.map eventKey) := by
        simp [hid]
      rw [heq]

/-- C9 amended: starting from the empty registry, any sequence of
vehicle-creating operations (manual adds and discovery hits) whose
`Date.now()` timestamps are pairwise distinct yields a registry whose
vehicles have pairwise distinct id values.  (Without the distinct-timestamp
hypothesis the claim is refuted by `creation_ids_counterexample`.) -/
theorem creation_ids_nodup (evs : List (CreationEvent × Nat))
    (ht : (evs.map Prod.snd).Nodup) :
    ((runCreations [] evs).map Vehicle.id).Nodup := by
  have hkeys : (evs.map eventKey).Nodup := by
    have h1 : evs.Pairwise (fun p q => p.2 ≠ q.2) := by
      rw [List.Nodup, List.pairwise_map] at ht
      exact ht
    rw [List.Nodup, List.pairwise_map]
    exact h1.imp (fun hne heq => hne (eventKey_time_inj _ _ heq))
  have hsub := runCreations_ids_sublist evs []
  simp only [List.map_nil, List.nil_append] at hsub
  exact hsub.nodup hkeys

/-- Witness for the amended C9: one manual add and one discovery hit at
distinct times give distinct ids. -/
theorem creation_ids_nodup_witness :
    (([((CreationEvent.add "Rover A" "192.168.1.5:5000" : CreationEvent), (1 : Nat)),
       (CreationEvent.discover "192.168.1." 5 5000, 2)].map Prod.snd).Nodup)
    ∧ ((runCreations []
          [(CreationEvent.add "Rover A" "192.168.1.5:5000", 1),
           (CreationEvent.discover "192.168.1." 5 5000, 2)]).map Vehicle.id).Nodup :=
  ⟨by decide, creation_ids_nodup _ (by decide)⟩

end SmartRover
